import Mathlib

/-!
Verification development for the carla_cpp excerpt: the command-line driver
`src/Examples/CppClient/main.cpp` and the OpenDRIVE file-lookup helper
`src/Unreal/CarlaUE4/Plugins/Carla/Source/Carla/OpenDrive/OpenDrive.cpp`.
The C++ functions are shallowly embedded as Lean functions; external library
behaviour (the standard library's `std::stoi`, the engine's file manager)
is modelled from its documented contract, while the repository's own code
is translated line by line.
-/

namespace Carla

/-! ## Embedding of `src/Examples/CppClient/main.cpp` -/

/-- Errors thrown inside `ParseArguments` / `RandomChoice`:
`expectTrue s` models the `EXPECT_TRUE(pred)` macro throwing
`std::runtime_error(#pred)`; `invalidArgument` and `outOfRange` model the
exceptions of `std::stoi`. -/
inductive CppError where
  | expectTrue (pred : String)
  | invalidArgument
  | outOfRange
deriving DecidableEq, Repr

/-- C `isspace` in the default locale: the six standard whitespace
characters skipped by `std::stoi` before the number. -/
def cIsSpace (c : Char) : Bool :=
  c = ' ' || c = '\t' || c = '\n' || c = '\x0b' || c = '\x0c' || c = '\r'

/-- Value of a run of decimal digits, most significant first. -/
def digitsToNat (ds : List Char) : Nat :=
  ds.foldl (fun a c => 10 * a + (c.toNat - 48)) 0

/-- Modelled from the contract of `std::stoi` (C++ standard library, not part
of this repository): skip leading whitespace, read an optional sign and a
non-empty run of decimal digits; throw `std::invalid_argument` when no digits
can be read, `std::out_of_range` when the value does not fit in a 32-bit
`int`; trailing characters are ignored. -/
def stoi (s : String) : Except CppError Int :=
  let cs := s.data.dropWhile cIsSpace
  let signed : Int × List Char :=
    match cs with
    | '+' :: r => (1, r)
    | '-' :: r => (-1, r)
    | r => (1, r)
  let ds := signed.2.takeWhile Char.isDigit
  if ds.isEmpty then .error .invalidArgument
  else
    let v : Int := signed.1 * (digitsToNat ds : Int)
    if v < -(2 ^ 31) || 2 ^ 31 - 1 < v then .error .outOfRange
    else .ok v

/-- The C++ implicit conversion from `int` to `uint16_t` in
`ResultType{argv[1u], std::stoi(argv[2u])}`: reduction modulo `2^16`
(well defined for negative values too, per the C++ conversion rule). -/
def intToUInt16 (v : Int) : Nat :=
  (v % 65536).toNat

/-- `ParseArguments` from `main.cpp` (lines 70-77): assert
`(argc == 1u) || (argc == 3u)` via `EXPECT_TRUE`, then return
`{argv[1], std::stoi(argv[2])}` narrowed to `uint16_t` when `argc == 3`,
and `{"localhost", 2000}` otherwise. `argc` is the C `int`; `argv` the
argument vector. -/
def ParseArguments (argc : Int) (argv : List String) :
    Except CppError (String × Nat) :=
  if ¬ (argc = 1 ∨ argc = 3) then
    .error (.expectTrue "(argc == 1u) || (argc == 3u)")
  else if argc = 3 then
    match stoi (argv.getD 2 "") with
    | .error e => .error e
    | .ok v => .ok (argv.getD 1 "", intToUInt16 v)
  else
    .ok ("localhost", 2000)

/-- Modelled from the contract of `std::uniform_int_distribution<size_t>
dist{lo, hi}` (C++ standard library): each invocation yields a value in
`[lo, hi]`; we realise the draw from the generator output as
`lo + draw % (hi - lo + 1)`. -/
def uniformIntDist (lo hi draw : Nat) : Nat :=
  lo + draw % (hi - lo + 1)

/-- `RandomChoice` from `main.cpp` (lines 41-46): assert the range is
non-empty via `EXPECT_TRUE(range.size() > 0u)`, draw an index from
`uniform_int_distribution<size_t>{0, size-1}` and index the range.  The
range is a list, the generator output a natural `draw`.  An out-of-bounds
access, undefined behaviour in C++, is modelled as a distinct error value
so that its absence can be proved. -/
def RandomChoice {α : Type} (range : List α) (draw : Nat) :
    Except CppError α :=
  if ¬ (range.length > 0) then
    .error (.expectTrue "range.size() > 0u")
  else
    match range.get? (uniformIntDist 0 (range.length - 1) draw) with
    | some x => .ok x
    | none => .error (.expectTrue "index within range")

/-- Exceptions reaching the two catch blocks of `main`:
`carla::client::TimeoutException` or any other `std::exception`,
each carrying the message returned by `what()`. -/
inductive ClientError where
  | timeout (msg : String)
  | other (msg : String)
deriving DecidableEq, Repr

/-- A finished process run: exit code and the lines written to stdout. -/
structure ProcResult where
  exitCode : Nat
  stdout : List String
deriving DecidableEq, Repr

/-- The try/catch structure of `main` (`main.cpp` lines 79-179):
`bodyOut` is whatever the try-block printed before finishing or throwing,
`res` how the block ended.  Falling off the end of `main` returns 0; the
timeout handler prints a newline, the message and a newline, returning 1;
the generic handler prints a newline, the text `Exception: `, the message
and a newline, returning 2. -/
def mainRun (bodyOut : List String) (res : Except ClientError Unit) :
    ProcResult :=
  match res with
  | .ok _ => ⟨0, bodyOut⟩
  | .error (.timeout m) => ⟨1, bodyOut ++ ["\n" ++ m ++ "\n"]⟩
  | .error (.other m) => ⟨2, bodyOut ++ ["\nException: " ++ m ++ "\n"]⟩

/-! ## Embedding of `OpenDrive.cpp`

Strings model `FString`; the engine file manager and `FFileHelper` are
abstracted into a `FileSystem` record of pure functions, since their code is
external to this repository.  The `WITH_EDITOR` build flag is a `Bool`
parameter `we`. -/

/-- `FString::StartsWith`: does `s` begin with `pre`? -/
def strStartsWith (s pre : String) : Bool :=
  pre.data.isPrefixOf s.data

/-- `FString::EndsWith`: does `s` end with `suf`? -/
def strEndsWith (s suf : String) : Bool :=
  suf.data.isSuffixOf s.data

/-- Modelled from the contract of `FString::RemoveFromStart` (Unreal Engine,
external to this repository): remove the given text from the start of the
string when it occurs there, otherwise leave the string unchanged. -/
def removeFromStart (s pre : String) : String :=
  if strStartsWith s pre then s.drop pre.length else s

/-- Modelled from the contract of `FString::RemoveFromEnd` (Unreal Engine,
external to this repository): remove the given text from the end of the
string when it occurs there, otherwise leave the string unchanged. -/
def removeFromEnd (s suf : String) : String :=
  if strEndsWith s suf then s.dropRight suf.length else s

/-- The editor-injected play-in-editor tag `TEXT("UEDPIE_0_")`. -/
def PIEPrefixStr : String := "UEDPIE_0_"

/-- The on-disk state seen through the engine interfaces used by
`OpenDrive.cpp`: the project content directory (`FPaths::ProjectContentDir`),
existence checks (`IFileManager::FileExists`), the recursive filename search
(`IFileManager::FindFilesRecursive`, as directory and filename pattern to the
list of paths found, in order) and file loading
(`FFileHelper::LoadFileToString`, `none` when loading fails). -/
structure FileSystem where
  projectContentDir : String
  fileExists : String → Bool
  findFilesRecursive : String → String → List String
  loadFileToString : String → Option String

/-- The local `MapName` of `FindPathToXODRFile` after the `WITH_EDITOR`
correction and appending `.xodr` (`OpenDrive.cpp` lines 19-31): the map
name with the PIE tag stripped under `WITH_EDITOR`, then `.xodr`
appended. -/
def xodrFileName (we : Bool) (InMapName : String) : String :=
  (if we then removeFromStart InMapName PIEPrefixStr else InMapName) ++
    ".xodr"

/-- The local `DefaultFilePath` of `FindPathToXODRFile` (`OpenDrive.cpp`
lines 33-36): `ProjectContentDir + "Carla/Maps/OpenDrive/" + MapName`. -/
def conventionalXODRPath (we : Bool) (fs : FileSystem) (InMapName : String) :
    String :=
  fs.projectContentDir ++ "Carla/Maps/OpenDrive/" ++ xodrFileName we InMapName

/-- `UOpenDrive::FindPathToXODRFile` (`OpenDrive.cpp` lines 17-55): under
`WITH_EDITOR` strip the PIE tag from the map name, append `.xodr`, return
the conventional path `ProjectContentDir + "Carla/Maps/OpenDrive/" + name`
when that file exists, else recursively search the content directory for
the filename and return the first hit, or the empty string when there is
none. -/
def FindPathToXODRFile (we : Bool) (fs : FileSystem) (InMapName : String) :
    String :=
  let MapName := xodrFileName we InMapName
  let DefaultFilePath := conventionalXODRPath we fs InMapName
  if fs.fileExists DefaultFilePath then
    DefaultFilePath
  else
    match fs.findFilesRecursive fs.projectContentDir MapName with
    | [] => ""
    | f :: _ => f

/-- The log lines emitted through `UE_LOG` by `LoadXODR`, `GetXODR` and
`GetXODRByPath`. -/
inductive LogLine where
  | errorFailedToFind (mapName : String)
  | loadedFile (filePath : String)
  | errorFailedToLoad (filePath : String)
deriving DecidableEq, Repr

/-- `UOpenDrive::LoadXODR` (`OpenDrive.cpp` lines 99-119): resolve the path
with `FindPathToXODRFile`; when it is empty log a not-found error, when
loading succeeds log success, when loading fails log a load error.  Returns
the content (empty on any failure) together with the log lines emitted. -/
def LoadXODR (we : Bool) (fs : FileSystem) (MapName : String) :
    String × List LogLine :=
  let FilePath := FindPathToXODRFile we fs MapName
  if FilePath.isEmpty then
    ("", [.errorFailedToFind MapName])
  else
    match fs.loadFileToString FilePath with
    | some content => (content, [.loadedFile FilePath])
    | none => ("", [.errorFailedToLoad FilePath])

/-- `UOpenDrive::GetXODRByPath` (`OpenDrive.cpp` lines 121-153): under
`WITH_EDITOR` strip the PIE tag from the map name; search the folder
obtained by removing `MapName + ".xodr"` from the end of the given path for
`MapName + ".xodr"` (or `"*" + ".xodr"` when the path already ends in the
map name); log a not-found error when the search is empty, log success when
loading the first hit succeeds, and — unlike `LoadXODR` — emit no log line
when loading fails.  Returns the content (empty on any failure) together
with the log lines emitted.  The map-name correction and the file search
are split out as `gxbpMapName` and `gxbpFiles` so the theorems can refer
to them. -/
def gxbpMapName (we : Bool) (InMapName : String) : String :=
  if we then removeFromStart InMapName PIEPrefixStr else InMapName

/-- The file search of `GetXODRByPath` (`OpenDrive.cpp` lines 133-139):
the folder is the given path with `MapName + ".xodr"` removed from its end,
the pattern is `MapName + ".xodr"`, or `"*" + ".xodr"` when the path
already ends in the map name. -/
def gxbpFiles (we : Bool) (fs : FileSystem) (XODRPath InMapName : String) :
    List String :=
  let MapName := gxbpMapName we InMapName
  let FileName := if strEndsWith XODRPath MapName then "*" else MapName
  let FolderDir := removeFromEnd XODRPath (MapName ++ ".xodr")
  fs.findFilesRecursive FolderDir (FileName ++ ".xodr")

def GetXODRByPath (we : Bool) (fs : FileSystem)
    (XODRPath InMapName : String) : String × List LogLine :=
  match gxbpFiles we fs XODRPath InMapName with
  | [] => ("", [.errorFailedToFind (gxbpMapName we InMapName)])
  | f :: _ =>
    match fs.loadFileToString f with
    | some content => (content, [.loadedFile f])
    | none => ("", [])

/-- A `UOpenDriveMap` object after `NewObject` and `Load(XODRContent)`:
only the loaded content matters to the claims. -/
structure UOpenDriveMap where
  loadedContent : String
deriving DecidableEq, Repr

/-- `UOpenDrive::LoadOpenDriveMap` (`OpenDrive.cpp` lines 155-165): start
with a null map pointer, call `LoadXODR`, and only when the content is
non-empty create a map object and `Load` the content into it. -/
def LoadOpenDriveMap (we : Bool) (fs : FileSystem) (MapName : String) :
    Option UOpenDriveMap :=
  let XODRContent := (LoadXODR we fs MapName).1
  if ¬ XODRContent.isEmpty then
    some ⟨XODRContent⟩
  else
    none

/-! ## Concrete filesystems used to instantiate the theorems -/

/-- A filesystem in which the conventional path for `Town03` exists and the
recursive search would also find a (different) match. -/
def fsConv : FileSystem where
  projectContentDir := "/Game/Content/"
  fileExists := fun p => p == "/Game/Content/Carla/Maps/OpenDrive/Town03.xodr"
  findFilesRecursive := fun _ _ => ["/Game/Content/Backup/Town03.xodr"]
  loadFileToString := fun _ => none

/-- A filesystem in which no conventional path exists and only the pattern
`Town10.xodr` is found by the recursive search. -/
def fsSearch : FileSystem where
  projectContentDir := "/Game/Content/"
  fileExists := fun _ => false
  findFilesRecursive := fun _ pat =>
    if pat == "Town10.xodr" then ["/Game/Content/Maps/Extra/Town10.xodr"]
    else []
  loadFileToString := fun _ => none

/-- A filesystem in which the search finds a file but loading it fails. -/
def fsLoadFail : FileSystem where
  projectContentDir := "/Game/Content/"
  fileExists := fun _ => false
  findFilesRecursive := fun _ _ => ["/Game/Content/Maps/Town01.xodr"]
  loadFileToString := fun _ => none

/-- A filesystem in which the conventional path always exists and loading
always yields non-empty content. -/
def fsLoadOk : FileSystem where
  projectContentDir := "/Game/Content/"
  fileExists := fun _ => true
  findFilesRecursive := fun _ _ => []
  loadFileToString := fun _ => some "<OpenDRIVE/>"

/-! ## Helper lemmas -/

/-- `stoi` only ever fails with the two `std::stoi` exceptions, never with
the `EXPECT_TRUE` runtime error. -/
theorem stoi_ne_expectTrue (s p : String) :
    stoi s ≠ Except.error (CppError.expectTrue p) := by
  unfold stoi
  dsimp only
  split
  · simp
  · split <;> simp

/-! ## The claims -/

/-- Claim C1: the driver exits with code 0 on success, 1 when the caught
exception is `carla::client::TimeoutException`, and 2 on any other caught
error; in both failure cases the message of the exception appears on
standard output. -/
theorem main_exit_codes_and_output (out : List String) (m : String) :
    (mainRun out (.ok ())).exitCode = 0 ∧
    (mainRun out (.error (.timeout m))).exitCode = 1 ∧
    (mainRun out (.error (.other m))).exitCode = 2 ∧
    ("\n" ++ m ++ "\n") ∈ (mainRun out (.error (.timeout m))).stdout ∧
    ("\nException: " ++ m ++ "\n") ∈
      (mainRun out (.error (.other m))).stdout := by
  refine ⟨rfl, rfl, rfl, ?_, ?_⟩ <;> simp [mainRun]

/-- Claim C2: when the conventional path
`ProjectContentDir + "Carla/Maps/OpenDrive/" + name + ".xodr"` exists,
`FindPathToXODRFile` returns exactly that path, and the recursive search is
not consulted: the result is the same whatever `FindFilesRecursive` would
return. -/
theorem FindPathToXODRFile_prefers_conventional (we : Bool)
    (fs : FileSystem) (name : String)
    (h : fs.fileExists (conventionalXODRPath we fs name) = true) :
    FindPathToXODRFile we fs name = conventionalXODRPath we fs name ∧
    ∀ g, FindPathToXODRFile we { fs with findFilesRecursive := g } name =
      conventionalXODRPath we fs name := by
  have key : ∀ g,
      FindPathToXODRFile we { fs with findFilesRecursive := g } name =
        conventionalXODRPath we fs name := by
    intro g
    unfold FindPathToXODRFile
    have h2 : ({ fs with findFilesRecursive := g } : FileSystem).fileExists
        (conventionalXODRPath we { fs with findFilesRecursive := g } name)
        = true := h
    rw [if_pos h2]
    rfl
  exact ⟨key fs.findFilesRecursive, key⟩

/-- Witness for C2: in `fsConv` the conventional path for `Town03` exists
and is returned even though the recursive search would find a different
file. -/
theorem FindPathToXODRFile_prefers_conventional_witness :
    FindPathToXODRFile false fsConv "Town03" =
      conventionalXODRPath false fsConv "Town03" :=
  (FindPathToXODRFile_prefers_conventional false fsConv "Town03"
    (by decide)).1

/-- Claim C3: when the conventional path does not exist,
`FindPathToXODRFile` returns the first file found by the recursive search
of the content directory for `name + ".xodr"`, and the empty string when
the search finds nothing. -/
theorem FindPathToXODRFile_fallback (we : Bool) (fs : FileSystem)
    (name : String)
    (h : fs.fileExists (conventionalXODRPath we fs name) = false) :
    FindPathToXODRFile we fs name =
      (fs.findFilesRecursive fs.projectContentDir
        (xodrFileName we name)).headD "" := by
  unfold FindPathToXODRFile
  simp only [h, Bool.false_eq_true, if_false]
  cases fs.findFilesRecursive fs.projectContentDir (xodrFileName we name) <;>
    rfl

/-- Witness for C3: in `fsSearch` the conventional path never exists; the
search finds `Town10.xodr` under a non-conventional folder, and finds
nothing for `Nowhere`. -/
theorem FindPathToXODRFile_fallback_witness :
    (fsSearch.fileExists (conventionalXODRPath false fsSearch "Town10")
        = false ∧
      FindPathToXODRFile false fsSearch "Town10" =
        "/Game/Content/Maps/Extra/Town10.xodr") ∧
    FindPathToXODRFile false fsSearch "Nowhere" = "" := by
  refine ⟨⟨by decide, ?_⟩, ?_⟩
  · have h := FindPathToXODRFile_fallback false fsSearch "Town10" (by decide)
    exact h.trans (by decide)
  · have h := FindPathToXODRFile_fallback false fsSearch "Nowhere" (by decide)
    exact h.trans (by decide)

/-- Claim C4: `ParseArguments` throws the `EXPECT_TRUE` runtime error of
the argument-count check exactly when `argc` is neither 1 nor 3; for
`argc = 1` and `argc = 3` the count check never fires (any remaining
failure comes from `std::stoi`, a different exception). -/
theorem ParseArguments_count_check (argc : Int) (argv : List String) :
    ParseArguments argc argv =
        Except.error (CppError.expectTrue "(argc == 1u) || (argc == 3u)") ↔
      (argc ≠ 1 ∧ argc ≠ 3) := by
  unfold ParseArguments
  by_cases h : argc = 1 ∨ argc = 3
  · simp only [h, not_true, if_false, if_neg]
    constructor
    · intro hcontr
      by_cases h3 : argc = 3
      · rw [if_pos h3] at hcontr
        cases hst : stoi (argv.getD 2 "") with
        | error e =>
          rw [hst] at hcontr
          simp only [Except.error.injEq] at hcontr
          exact absurd hst (hcontr ▸ stoi_ne_expectTrue (argv.getD 2 "") _)
        | ok v =>
          rw [hst] at hcontr
          exact Except.noConfusion hcontr
      · rw [if_neg h3] at hcontr
        exact Except.noConfusion hcontr
    · intro hcontr
      rcases h with h1 | h3
      · exact absurd h1 hcontr.1
      · exact absurd h3 hcontr.2
  · simp only [h, not_false_iff, if_true]
    push_neg at h
    simp [h]

/-- Claim C5: with no positional arguments `ParseArguments` returns the
default pair `("localhost", 2000)` — unconditionally, whatever `argv`
holds; with two positional arguments and a second argument `std::stoi`
accepts, it returns `argv[1]` as host and the parsed value narrowed to
`uint16_t` as port. -/
theorem ParseArguments_values (argv : List String) :
    ParseArguments 1 argv = Except.ok ("localhost", 2000) ∧
    ∀ v : Int, stoi (argv.getD 2 "") = Except.ok v →
      ParseArguments 3 argv = Except.ok (argv.getD 1 "", intToUInt16 v) := by
  constructor
  · rfl
  · intro v h
    unfold ParseArguments
    rw [if_neg (by decide), if_pos (by decide), h]

/-- Witness for C5: the defaults for a real zero-argument invocation
(`argv` holds only the program name), and host `10.0.0.1` with port 4000
for two arguments. -/
theorem ParseArguments_values_witness :
    ParseArguments 1 ["client"] = Except.ok ("localhost", 2000) ∧
    ParseArguments 3 ["client", "10.0.0.1", "4000"] =
      Except.ok ("10.0.0.1", intToUInt16 4000) :=
  ⟨(ParseArguments_values ["client"]).1,
    (ParseArguments_values ["client", "10.0.0.1", "4000"]).2 4000 (by rfl)⟩

/-- Claim C6: under `WITH_EDITOR` the lookup first removes the
editor-injected tag `UEDPIE_0_` from the start of the map name when it is
present and leaves the name unchanged otherwise; afterwards the lookup
behaves exactly like the non-editor build on the corrected name. -/
theorem FindPathToXODRFile_strips_pie_tag (fs : FileSystem)
    (name : String) :
    FindPathToXODRFile true fs name =
      FindPathToXODRFile false fs
        (if strStartsWith name PIEPrefixStr then name.drop PIEPrefixStr.length
         else name) := by
  rfl

/-- Counterexample to C7 as stated: in `fsLoadFail`, `GetXODRByPath` finds
`/Game/Content/Maps/Town01.xodr` but loading it fails; the routine returns
the empty string yet emits no log line at all. -/
theorem GetXODRByPath_load_failure_silent :
    GetXODRByPath false fsLoadFail "/Game/Content/Maps/Town01.xodr" "Town01"
      = ("", []) := by
  decide

/-- Claim C7 (amended): every failed lookup returns the empty string;
`LoadXODR` also emits a failure log line in both failure cases (no path
found, load failed), while `GetXODRByPath` emits one only when no file is
found and stays silent when the found file fails to load. -/
theorem xodr_failure_reporting (we : Bool) (fs : FileSystem)
    (name path : String) :
    (FindPathToXODRFile we fs name = "" →
      LoadXODR we fs name = ("", [.errorFailedToFind name])) ∧
    (FindPathToXODRFile we fs name ≠ "" →
      fs.loadFileToString (FindPathToXODRFile we fs name) = none →
      LoadXODR we fs name =
        ("", [.errorFailedToLoad (FindPathToXODRFile we fs name)])) ∧
    (gxbpFiles we fs path name = [] →
      GetXODRByPath we fs path name =
        ("", [.errorFailedToFind (gxbpMapName we name)])) ∧
    (∀ f rest, gxbpFiles we fs path name = f :: rest →
      fs.loadFileToString f = none →
      GetXODRByPath we fs path name = ("", [])) := by
  refine ⟨?_, ?_, ?_, ?_⟩
  · intro h
    unfold LoadXODR
    rw [h]
    rfl
  · intro hne hload
    unfold LoadXODR
    rw [if_neg (by simpa [String.isEmpty_iff] using hne), hload]
  · intro h
    unfold GetXODRByPath
    rw [h]
  · intro f rest hfiles hload
    unfold GetXODRByPath
    rw [hfiles]
    dsimp only
    rw [hload]

/-- Witness for C7 (amended): `LoadXODR` logs the not-found failure in
`fsSearch` for a map with no file, and `GetXODRByPath` returns empty with
no log line in `fsLoadFail` where loading fails. -/
theorem xodr_failure_reporting_witness :
    LoadXODR false fsSearch "Nowhere" =
      ("", [.errorFailedToFind "Nowhere"]) ∧
    GetXODRByPath false fsLoadFail "/Game/Content/Maps/Town01.xodr" "Town01"
      = ("", []) := by
  constructor
  · exact (xodr_failure_reporting false fsSearch "Nowhere" "").1 (by decide)
  · exact (xodr_failure_reporting false fsLoadFail "Town01"
      "/Game/Content/Maps/Town01.xodr").2.2.2
      "/Game/Content/Maps/Town01.xodr" [] (by decide) (by decide)

/-- Claim C8: `RandomChoice` throws the `EXPECT_TRUE` runtime error exactly
on an empty range, and on a non-empty range the drawn index always lies
within bounds, so the result is an element of the range for every
generator output. -/
theorem RandomChoice_safe {α : Type} (range : List α) (draw : Nat) :
    (range = [] → RandomChoice range draw =
      Except.error (CppError.expectTrue "range.size() > 0u")) ∧
    (range ≠ [] → ∃ x, x ∈ range ∧ RandomChoice range draw = .ok x) := by
  constructor
  · intro h
    subst h
    rfl
  · intro h
    have hlen : 0 < range.length := List.length_pos.mpr h
    have hidx : uniformIntDist 0 (range.length - 1) draw < range.length := by
      unfold uniformIntDist
      have hsucc : range.length - 1 - 0 + 1 = range.length := by omega
      rw [hsucc, Nat.zero_add]
      exact Nat.mod_lt _ hlen
    refine ⟨range.get ⟨_, hidx⟩, List.get_mem range _ hidx, ?_⟩
    unfold RandomChoice
    rw [if_neg (not_not_intro hlen), List.get?_eq_get hidx]

/-- Witness for C8: a draw from a three-element range returns one of its
elements; the empty range yields the `EXPECT_TRUE` error. -/
theorem RandomChoice_safe_witness :
    (∃ x, x ∈ [10, 20, 30] ∧ RandomChoice [10, 20, 30] 7 = .ok x) ∧
    RandomChoice ([] : List Nat) 7 =
      Except.error (CppError.expectTrue "range.size() > 0u") := by
  constructor
  · exact (RandomChoice_safe [10, 20, 30] 7).2 (by decide)
  · exact (RandomChoice_safe ([] : List Nat) 7).1 rfl

/-- Claim C9: `LoadOpenDriveMap` returns the null pointer exactly when
`LoadXODR` produced empty content, and any non-null result is a map object
whose `Load` was called with that non-empty content. -/
theorem LoadOpenDriveMap_null_iff (we : Bool) (fs : FileSystem)
    (name : String) :
    (LoadOpenDriveMap we fs name = none ↔ (LoadXODR we fs name).1 = "") ∧
    (∀ m, LoadOpenDriveMap we fs name = some m →
      m.loadedContent = (LoadXODR we fs name).1 ∧
        m.loadedContent ≠ "") := by
  unfold LoadOpenDriveMap
  constructor
  · by_cases h : (LoadXODR we fs name).1 = ""
    · simp [h, String.isEmpty_iff]
    · simp [h, String.isEmpty_iff]
  · intro m hm
    by_cases h : (LoadXODR we fs name).1 = ""
    · simp [h, String.isEmpty_iff] at hm
    · simp only [String.isEmpty_iff, h, not_false_iff, if_true,
        Option.some.injEq] at hm
      subst hm
      exact ⟨rfl, h⟩

/-- Witness for C9: in `fsLoadOk` the map loads, the object holds the
non-empty XODR content. -/
theorem LoadOpenDriveMap_null_iff_witness :
    (⟨"<OpenDRIVE/>"⟩ : UOpenDriveMap).loadedContent =
        (LoadXODR false fsLoadOk "Town").1 ∧
      (⟨"<OpenDRIVE/>"⟩ : UOpenDriveMap).loadedContent ≠ "" :=
  (LoadOpenDriveMap_null_iff false fsLoadOk "Town").2 ⟨"<OpenDRIVE/>"⟩
    (by decide)

/-- Claim C10: with two positional arguments the port is `std::stoi` of
`argv[2]` reduced modulo `2^16`; when `std::stoi` fails (no digits, or the
value exceeds the `int` range) the exception propagates and no port is
produced. -/
theorem ParseArguments_port_narrowing (argv : List String) :
    (∀ v : Int, stoi (argv.getD 2 "") = Except.ok v →
      ParseArguments 3 argv =
        Except.ok (argv.getD 1 "", (v % 2 ^ 16).toNat)) ∧
    (∀ e, stoi (argv.getD 2 "") = Except.error e →
      ParseArguments 3 argv = Except.error e) := by
  constructor
  · intro v h
    unfold ParseArguments
    rw [if_neg (by decide), if_pos (by decide), h]
    rfl
  · intro e h
    unfold ParseArguments
    rw [if_neg (by decide), if_pos (by decide), h]

/-- Witness for C10: `70000` narrows to `70000 mod 2^16`, and a second
argument without digits propagates the `std::stoi` exception. -/
theorem ParseArguments_port_narrowing_witness :
    ParseArguments 3 ["client", "srvhost", "70000"] =
      Except.ok ("srvhost", (((70000 : Int)) % 2 ^ 16).toNat) ∧
    ParseArguments 3 ["client", "srvhost", "oops"] =
      Except.error CppError.invalidArgument := by
  constructor
  · exact (ParseArguments_port_narrowing ["client", "srvhost", "70000"]).1
      70000 (by rfl)
  · exact (ParseArguments_port_narrowing ["client", "srvhost", "oops"]).2
      CppError.invalidArgument (by rfl)

end Carla
